import Mathlib

/-
Shallow embedding of src/expense_approval_backend.py.

The SQLite database is modelled as lists of rows plus autoincrement
counters for the two tables whose ids the workflow routes allocate
(expense, approvalrequest).  Python truthiness of an optional foreign
key (`if rule.approver_id:`) is modelled by `optTruthy`: the value is
truthy exactly when it is `some n` with `n` nonzero.  HTTPException is
modelled as an error value carrying the status code and detail string;
a route that raises is a function into `Except`.
-/

set_option autoImplicit false

namespace ExpenseApproval

/-- Row of the `company` table (lines 22-28 of the source). -/
structure Company where
  id : Nat
  name : String
  country : String
  currency : String
deriving DecidableEq

/-- Row of the `user` table (lines 37-49): role, company membership and the
optional self-referential `manager_id`. -/
structure User where
  id : Nat
  email : String
  password : String
  role : String
  company_id : Nat
  manager_id : Option Nat
deriving DecidableEq

/-- Row of the `expense` table (lines 52-62).  The float `amount` carries no
arithmetic anywhere in the workflow code, so it is embedded as a rational;
the datetime is embedded as an abstract timestamp. -/
structure Expense where
  id : Nat
  amount : Rat
  currency : String
  category : String
  description : String
  date : Nat
  user_id : Nat
deriving DecidableEq

/-- Row of the `approvalrequest` table (lines 65-73); `status` is the string
field defaulting to "pending". -/
structure ApprovalRequest where
  id : Nat
  status : String
  step : Nat
  expense_id : Nat
  approver_id : Nat
deriving DecidableEq

/-- Row of the `approvalrule` table (lines 76-82): optional fixed approver,
optional percentage threshold, hybrid flag. -/
structure ApprovalRule where
  id : Nat
  company_id : Nat
  step : Nat
  approver_id : Option Nat
  percentage_required : Option Rat
  hybrid : Bool
deriving DecidableEq

/-- The persistent store: one list of rows per table, plus the autoincrement
counters for the ids allocated by the two workflow routes. -/
structure DB where
  companies : List Company
  users : List User
  expenses : List Expense
  rules : List ApprovalRule
  requests : List ApprovalRequest
  nextExpenseId : Nat
  nextRequestId : Nat
deriving DecidableEq

/-- An HTTPException raised by a route: status code and detail string. -/
structure ApiError where
  status : Nat
  detail : String
deriving DecidableEq

/-- Response body of POST /expenses (line 191). -/
structure SubmitResponse where
  expense_id : Nat
  status : String
deriving DecidableEq

/-- Response body of POST /approvals/:id (line 213). -/
structure ActResponse where
  approval_id : Nat
  status : String
deriving DecidableEq

/-- Python truthiness of an `Optional[int]` foreign key: `None` and `0` are
falsy, every other integer is truthy. -/
def optTruthy : Option Nat → Bool
  | none => false
  | some n => n != 0

/-- `session.exec(select(ApprovalRule).where(ApprovalRule.company_id == cid)).all()`
(line 180): all rules of the company, in table order. -/
def rulesFor (db : DB) (companyId : Nat) : List ApprovalRule :=
  db.rules.filter (fun r => r.company_id == companyId)

/-- The `for rule in rules:` loop of lines 185-188: one pending request per
rule whose `approver_id` is truthy, at that rule's own step, with sequential
autoincrement ids starting at `startId`. -/
def buildRequests (rules : List ApprovalRule) (eid : Nat) (startId : Nat) :
    List ApprovalRequest :=
  match rules with
  | [] => []
  | rule :: rest =>
    match rule.approver_id with
    | none => buildRequests rest eid startId
    | some a =>
      if a ≠ 0 then
        { id := startId, status := "pending", step := rule.step,
          expense_id := eid, approver_id := a } :: buildRequests rest eid (startId + 1)
      else
        buildRequests rest eid startId

/-- POST /expenses (lines 170-191): persist the expense, then create approval
requests; with no rules and a truthy manager a single step-1 request for the
manager, otherwise one request per rule with a truthy fixed approver.  The
response always reports status "submitted". -/
def submit_expense (db : DB) (u : User) (amount : Rat)
    (currency category description : String) (date : Nat) :
    DB × SubmitResponse :=
  let eid := db.nextExpenseId
  let expense : Expense :=
    { id := eid, amount := amount, currency := currency, category := category,
      description := description, date := date, user_id := u.id }
  let rules := rulesFor db u.company_id
  let newReqs : List ApprovalRequest :=
    if rules.isEmpty && optTruthy u.manager_id then
      [{ id := db.nextRequestId, status := "pending", step := 1,
         expense_id := eid, approver_id := u.manager_id.getD 0 }]
    else
      buildRequests rules eid db.nextRequestId
  ({ db with
      expenses := db.expenses ++ [expense],
      requests := db.requests ++ newReqs,
      nextExpenseId := eid + 1,
      nextRequestId := db.nextRequestId + newReqs.length },
   { expense_id := eid, status := "submitted" })

/-- `session.get(ApprovalRequest, approval_id)` (line 203): primary-key lookup. -/
def getRequest (db : DB) (rid : Nat) : Option ApprovalRequest :=
  db.requests.find? (fun r => r.id == rid)

/-- POST /approvals/:id (lines 200-213).  404 when the request is missing OR
owned by another approver; 400 when the action string is neither "approved"
nor "rejected"; otherwise the status of that one request is overwritten with
the action string and nothing else changes. -/
def act_on_approval (db : DB) (approval_id : Nat) (action : String)
    (current_user_id : Nat) : Except ApiError (DB × ActResponse) :=
  match getRequest db approval_id with
  | none => Except.error { status := 404, detail := "Approval not found" }
  | some approval =>
    if approval.approver_id ≠ current_user_id then
      Except.error { status := 404, detail := "Approval not found" }
    else if action ≠ "approved" ∧ action ≠ "rejected" then
      Except.error { status := 400, detail := "Invalid action" }
    else
      Except.ok
        ({ db with
            requests := db.requests.map
              (fun r => if r.id = approval_id then { r with status := action } else r) },
         { approval_id := approval.id, status := action })

/-- Sequential composition of several POST /approvals/:id calls
(approval_id, action, acting user), stopping at the first error. -/
def actChain (db : DB) : List (Nat × String × Nat) → Except ApiError DB
  | [] => Except.ok db
  | (aid, action, uid) :: rest =>
    match act_on_approval db aid action uid with
    | Except.error e => Except.error e
    | Except.ok (db', _) => actChain db' rest

/-
Concrete fixture states used by counterexamples and witnesses.
-/

/-- Fixture for C1: one expense, two step-1 rules with fixed approvers and no
percentage threshold, two pending requests for the same expense. -/
def c1db : DB :=
  { companies := [⟨1, "acme", "US", "USD"⟩],
    users := [],
    expenses := [⟨1, 50, "USD", "travel", "cab", 0, 5⟩],
    rules := [⟨1, 1, 1, some 10, none, false⟩, ⟨2, 1, 1, some 11, none, false⟩],
    requests := [⟨1, "pending", 1, 1, 10⟩, ⟨2, "pending", 1, 1, 11⟩],
    nextExpenseId := 2, nextRequestId := 3 }

/-- State of `c1db` after approver 10 rejects request 1. -/
def c1db' : DB :=
  { c1db with requests := [⟨1, "rejected", 1, 1, 10⟩, ⟨2, "pending", 1, 1, 11⟩] }

/-- Fixture for C2: rules at steps 1 and 2, but only the step-1 request
exists so far. -/
def c2db : DB :=
  { companies := [⟨1, "acme", "US", "USD"⟩],
    users := [],
    expenses := [⟨1, 50, "USD", "travel", "cab", 0, 5⟩],
    rules := [⟨1, 1, 1, some 10, none, false⟩, ⟨2, 1, 2, some 20, none, false⟩],
    requests := [⟨1, "pending", 1, 1, 10⟩],
    nextExpenseId := 2, nextRequestId := 2 }

/-- State of `c2db` after approver 10 approves request 1. -/
def c2db' : DB := { c2db with requests := [⟨1, "approved", 1, 1, 10⟩] }

/-- Fixture for C3: a single request that is already resolved ("approved"). -/
def c3db : DB :=
  { companies := [], users := [],
    expenses := [⟨1, 5, "USD", "meals", "lunch", 0, 4⟩],
    rules := [],
    requests := [⟨1, "approved", 1, 1, 10⟩],
    nextExpenseId := 2, nextRequestId := 2 }

/-- State of `c3db` after approver 10 acts again with "rejected". -/
def c3db' : DB := { c3db with requests := [⟨1, "rejected", 1, 1, 10⟩] }

/-- Fixture for C4: a company with a step-1 rule and a step-2 rule, both with
fixed approvers. -/
def c4db : DB :=
  { companies := [⟨1, "acme", "US", "USD"⟩],
    users := [],
    expenses := [],
    rules := [⟨1, 1, 1, some 10, none, false⟩, ⟨2, 1, 2, some 20, none, false⟩],
    requests := [], nextExpenseId := 1, nextRequestId := 1 }

/-- Submitter for C4: employee of company 1, no manager. -/
def c4user : User :=
  { id := 5, email := "emp@acme.io", password := "pw", role := "employee",
    company_id := 1, manager_id := none }

/-- Fixture for C5: a 60 percent step-1 rule with no fixed approver and
three pending pool requests for expense 1. -/
def c5db : DB :=
  { companies := [⟨1, "acme", "US", "USD"⟩],
    users := [],
    expenses := [⟨1, 100, "USD", "travel", "flight", 0, 5⟩],
    rules := [⟨1, 1, 1, none, some 60, false⟩],
    requests := [⟨1, "pending", 1, 1, 11⟩, ⟨2, "pending", 1, 1, 12⟩,
                 ⟨3, "pending", 1, 1, 13⟩],
    nextExpenseId := 2, nextRequestId := 4 }

/-- Same fixture with the percentage threshold removed from the rule. -/
def c5dbNoPct : DB :=
  { c5db with rules := [⟨1, 1, 1, none, none, false⟩] }

/-- Fixture for C6: a company with zero approval rules. -/
def c6db : DB :=
  { companies := [⟨1, "acme", "US", "USD"⟩],
    users := [], expenses := [], rules := [], requests := [],
    nextExpenseId := 1, nextRequestId := 1 }

/-- Submitter for C6: employee with manager 3. -/
def c6user : User :=
  { id := 2, email := "emp@acme.io", password := "pw", role := "employee",
    company_id := 1, manager_id := some 3 }

/-- Submitter for C7: employee of the ruleless company with no manager. -/
def c7user : User :=
  { id := 2, email := "emp@acme.io", password := "pw", role := "employee",
    company_id := 1, manager_id := none }

/-- Fixture for C8 and C9: one pending request owned by approver 10. -/
def c8db : DB :=
  { companies := [], users := [],
    expenses := [⟨1, 5, "USD", "meals", "lunch", 0, 4⟩],
    rules := [],
    requests := [⟨1, "pending", 1, 1, 10⟩],
    nextExpenseId := 2, nextRequestId := 2 }

/-- State of `c8db` after approver 10 submits the accepted "approved" string. -/
def c8db' : DB := { c8db with requests := [⟨1, "approved", 1, 1, 10⟩] }

/-- Fixture for C10: one expense and two pending requests. -/
def c10db : DB :=
  { companies := [], users := [],
    expenses := [⟨1, 9, "USD", "misc", "desc", 0, 4⟩],
    rules := [],
    requests := [⟨1, "pending", 1, 1, 10⟩, ⟨2, "pending", 1, 1, 11⟩],
    nextExpenseId := 2, nextRequestId := 3 }

/-- State of `c10db` after approver 10 approves request 1. -/
def c10db' : DB :=
  { c10db with requests := [⟨1, "approved", 1, 1, 10⟩, ⟨2, "pending", 1, 1, 11⟩] }

/-
Shared characterization lemmas for act_on_approval.
-/

/-- On success, POST /approvals/:id leaves every table except
`approvalrequest` untouched and rewrites the request list by updating the
status of the row with the given id. -/
theorem act_ok_inv (db : DB) (aid : Nat) (action : String) (uid : Nat)
    (db' : DB) (resp : ActResponse)
    (h : act_on_approval db aid action uid = Except.ok (db', resp)) :
    db'.companies = db.companies ∧ db'.users = db.users ∧
    db'.expenses = db.expenses ∧ db'.rules = db.rules ∧
    db'.nextExpenseId = db.nextExpenseId ∧ db'.nextRequestId = db.nextRequestId ∧
    db'.requests = db.requests.map
      (fun r => if r.id = aid then { r with status := action } else r) := by
  unfold act_on_approval at h
  split at h
  · exact absurd h (by simp)
  · split at h
    · exact absurd h (by simp)
    · split at h
      · exact absurd h (by simp)
      · rename_i a hf h1 h2
        have hdb1 : db' = { db with
            requests := db.requests.map
              (fun r => if r.id = aid then { r with status := action } else r) } :=
          (congrArg Prod.fst (Except.ok.inj h)).symm
        subst hdb1
        exact ⟨rfl, rfl, rfl, rfl, rfl, rfl, rfl⟩

/-- On success the action string was one of the two accepted values, the
request exists and is owned by the acting user, and the response echoes its
id and the new status. -/
theorem act_ok_preconds (db : DB) (aid : Nat) (action : String) (uid : Nat)
    (db' : DB) (resp : ActResponse)
    (h : act_on_approval db aid action uid = Except.ok (db', resp)) :
    (action = "approved" ∨ action = "rejected") ∧
    ∃ a, getRequest db aid = some a ∧ a.approver_id = uid ∧
      resp = { approval_id := a.id, status := action } := by
  unfold act_on_approval at h
  split at h
  · exact absurd h (by simp)
  · split at h
    · exact absurd h (by simp)
    · split at h
      · exact absurd h (by simp)
      · rename_i a hf h1 h2
        have hact : action = "approved" ∨ action = "rejected" := by
          by_contra hc
          push_neg at hc
          exact h2 ⟨hc.1, hc.2⟩
        have hresp := congrArg Prod.snd (Except.ok.inj h)
        exact ⟨hact, a, hf, not_ne_iff.mp h1, hresp.symm⟩

/-- When the preconditions of the success branch hold, the call succeeds with
the status-overwriting update, regardless of the current status of the
request. -/
theorem act_ok_eq (db : DB) (aid : Nat) (action : String) (uid : Nat)
    (a : ApprovalRequest) (hfind : getRequest db aid = some a)
    (howner : a.approver_id = uid)
    (haction : action = "approved" ∨ action = "rejected") :
    act_on_approval db aid action uid =
      Except.ok
        ({ db with
            requests := db.requests.map
              (fun r => if r.id = aid then { r with status := action } else r) },
         { approval_id := a.id, status := action }) := by
  have h2 : ¬ (action ≠ "approved" ∧ action ≠ "rejected") := by
    rcases haction with h | h
    · exact fun hc => hc.1 h
    · exact fun hc => hc.2 h
  unfold act_on_approval
  rw [hfind]
  simp only [if_neg (not_ne_iff.mpr howner), if_neg h2]

/-- The status-overwriting update does not change requests with a different id. -/
theorem update_mem_ne (l : List ApprovalRequest) (aid : Nat) (action : String)
    (r : ApprovalRequest) (hr : r ∈ l) (hne : r.id ≠ aid) :
    r ∈ l.map (fun x => if x.id = aid then { x with status := action } else x) := by
  refine List.mem_map.mpr ⟨r, hr, ?_⟩
  simp [hne]

/-- The status-overwriting update sends the request with the matching id to
the same request with its status overwritten. -/
theorem update_mem_eq (l : List ApprovalRequest) (aid : Nat) (action : String)
    (r : ApprovalRequest) (hr : r ∈ l) (heq : r.id = aid) :
    { r with status := action } ∈
      l.map (fun x => if x.id = aid then { x with status := action } else x) := by
  refine List.mem_map.mpr ⟨r, hr, ?_⟩
  simp [heq]

/-- The status-overwriting update never changes the step of a request. -/
theorem update_step (aid : Nat) (action : String) (r : ApprovalRequest) :
    ((if r.id = aid then { r with status := action } else r) : ApprovalRequest).step
      = r.step := by
  split <;> rfl

/-- Every request produced by the submission loop is pending, belongs to the
new expense, and corresponds to a rule of the list whose fixed approver it
carries, at that rule's own step. -/
theorem buildRequests_spec (rules : List ApprovalRule) (eid sid : Nat) :
    ∀ r ∈ buildRequests rules eid sid,
      r.status = "pending" ∧ r.expense_id = eid ∧
      ∃ rule, rule ∈ rules ∧ rule.step = r.step ∧
        rule.approver_id = some r.approver_id := by
  induction rules generalizing sid with
  | nil => intro r hr; simp [buildRequests] at hr
  | cons hd tl ih =>
    intro r hr
    unfold buildRequests at hr
    split at hr
    · obtain ⟨h1, h2, rule, h3, h4, h5⟩ := ih sid r hr
      exact ⟨h1, h2, rule, List.mem_cons_of_mem _ h3, h4, h5⟩
    · rename_i a hah
      split at hr
      · rcases List.mem_cons.mp hr with h | h
        · subst h
          exact ⟨rfl, rfl, hd, List.mem_cons_self _ _, rfl, hah⟩
        · obtain ⟨h1, h2, rule, h3, h4, h5⟩ := ih (sid + 1) r h
          exact ⟨h1, h2, rule, List.mem_cons_of_mem _ h3, h4, h5⟩
      · obtain ⟨h1, h2, rule, h3, h4, h5⟩ := ih sid r hr
        exact ⟨h1, h2, rule, List.mem_cons_of_mem _ h3, h4, h5⟩

/-
Claim C10.
-/

/-- C10: for every successful call to act_on_approval the only state change
is the status field of the single ApprovalRequest identified by the given
id: companies, users, expenses (with all their fields) and rules are
unchanged, no request is created or deleted, every request with a different
id is unchanged, and the targeted request keeps every field but status. -/
theorem c10_act_frame (db : DB) (aid : Nat) (action : String) (uid : Nat)
    (db' : DB) (resp : ActResponse)
    (h : act_on_approval db aid action uid = Except.ok (db', resp)) :
    db'.expenses = db.expenses ∧ db'.companies = db.companies ∧
    db'.users = db.users ∧ db'.rules = db.rules ∧
    db'.requests.length = db.requests.length ∧
    (∀ r, r ∈ db.requests → r.id ≠ aid → r ∈ db'.requests) ∧
    (∀ r, r ∈ db.requests → r.id = aid → { r with status := action } ∈ db'.requests) := by
  obtain ⟨hc, hu, he, hr, _, _, hreq⟩ := act_ok_inv db aid action uid db' resp h
  refine ⟨he, hc, hu, hr, ?_, ?_, ?_⟩
  · rw [hreq, List.length_map]
  · intro r hrm hne
    rw [hreq]
    exact update_mem_ne db.requests aid action r hrm hne
  · intro r hrm heq
    rw [hreq]
    exact update_mem_eq db.requests aid action r hrm heq

/-- Witness for C10 at a concrete state: approving request 1 of `c10db`
leaves all other tables, the sibling request 2, and the non-status fields of
request 1 unchanged. -/
theorem c10_act_frame_witness :
    c10db'.expenses = c10db.expenses ∧ c10db'.companies = c10db.companies ∧
    c10db'.users = c10db.users ∧ c10db'.rules = c10db.rules ∧
    c10db'.requests.length = c10db.requests.length ∧
    (⟨2, "pending", 1, 1, 11⟩ : ApprovalRequest) ∈ c10db'.requests ∧
    (⟨1, "approved", 1, 1, 10⟩ : ApprovalRequest) ∈ c10db'.requests := by
  have h := c10_act_frame c10db 1 "approved" 10 c10db' ⟨1, "approved"⟩ rfl
  exact ⟨h.1, h.2.1, h.2.2.1, h.2.2.2.1, h.2.2.2.2.1,
    h.2.2.2.2.2.1 ⟨2, "pending", 1, 1, 11⟩ (by decide) (by decide),
    h.2.2.2.2.2.2 ⟨1, "pending", 1, 1, 10⟩ (by decide) (by decide)⟩

/-
Claim C1.
-/

/-- C1 counterexample: both step-1 rules of `c1db` have no percentage
threshold, request 1 and its sibling request 2 are pending for the same
expense, and approver 10 rejects request 1 — yet the sibling request 2 is
still "pending" afterwards (not cancelled to any terminal superseded
outcome) and the expense table is unchanged (no row records a rejected
workflow status, and the Expense model has no status column at all). -/
theorem c1_counterexample :
    c1db.rules = [⟨1, 1, 1, some 10, none, false⟩, ⟨2, 1, 1, some 11, none, false⟩] ∧
    act_on_approval c1db 1 "rejected" 10 = Except.ok (c1db', ⟨1, "rejected"⟩) ∧
    getRequest c1db' 2 = some ⟨2, "pending", 1, 1, 11⟩ ∧
    c1db'.expenses = c1db.expenses ∧ c1db'.rules = c1db.rules :=
  ⟨rfl, rfl, rfl, rfl, rfl⟩

/-- C1 amended: a reject (action string "rejected") on a request sets only
that request's status to rejected and creates no further requests; every
other ApprovalRequest of the store — pending siblings of the same expense
included — is left exactly as it was, and the expense table is unchanged
(the code stores no expense-level workflow status and cancels nothing). -/
theorem c1_reject_is_local (db : DB) (aid uid : Nat) (db' : DB)
    (resp : ActResponse)
    (h : act_on_approval db aid "rejected" uid = Except.ok (db', resp)) :
    (∀ r, r ∈ db.requests → r.id = aid → { r with status := "rejected" } ∈ db'.requests) ∧
    (∀ r, r ∈ db.requests → r.id ≠ aid → r ∈ db'.requests) ∧
    db'.expenses = db.expenses ∧
    db'.requests.length = db.requests.length := by
  obtain ⟨_, _, he, _, _, _, hreq⟩ := act_ok_inv db aid "rejected" uid db' resp h
  refine ⟨?_, ?_, he, ?_⟩
  · intro r hrm heq
    rw [hreq]
    exact update_mem_eq db.requests aid "rejected" r hrm heq
  · intro r hrm hne
    rw [hreq]
    exact update_mem_ne db.requests aid "rejected" r hrm hne
  · rw [hreq, List.length_map]

/-- Witness for the amended C1 at the concrete state `c1db`. -/
theorem c1_reject_is_local_witness :
    (⟨1, "rejected", 1, 1, 10⟩ : ApprovalRequest) ∈ c1db'.requests ∧
    (⟨2, "pending", 1, 1, 11⟩ : ApprovalRequest) ∈ c1db'.requests ∧
    c1db'.expenses = c1db.expenses ∧
    c1db'.requests.length = c1db.requests.length := by
  have h := c1_reject_is_local c1db 1 10 c1db' ⟨1, "rejected"⟩ rfl
  exact ⟨h.1 ⟨1, "pending", 1, 1, 10⟩ (by decide) (by decide),
    h.2.1 ⟨2, "pending", 1, 1, 11⟩ (by decide) (by decide), h.2.2.1, h.2.2.2⟩

/-
Claim C2.
-/

/-- C2 counterexample: in `c2db` the company has rules at steps 1 and 2, and
step 1 completes when approver 10 (its sole fixed approver) approves request
1 — yet afterwards the request list still contains only the step-1 request:
no step-2 request was materialized, and no expense row records an overall
status (the Expense model has no status column). -/
theorem c2_counterexample :
    c2db.rules = [⟨1, 1, 1, some 10, none, false⟩, ⟨2, 1, 2, some 20, none, false⟩] ∧
    act_on_approval c2db 1 "approved" 10 = Except.ok (c2db', ⟨1, "approved"⟩) ∧
    c2db'.requests = [⟨1, "approved", 1, 1, 10⟩] ∧
    c2db'.requests.all (fun r => r.step != 2) = true ∧
    c2db'.expenses = c2db.expenses :=
  ⟨rfl, rfl, rfl, rfl, rfl⟩

/-- C2 amended: an approve sets only that request's status to approved; the
call never creates requests (the next step is NOT materialized on
completion — requests for every step with a fixed approver already exist
from submission time), every step present afterwards was present before,
and no expense-level approved status is recorded (there is no status
column). -/
theorem c2_approve_is_local (db : DB) (aid uid : Nat) (db' : DB)
    (resp : ActResponse)
    (h : act_on_approval db aid "approved" uid = Except.ok (db', resp)) :
    db'.requests.length = db.requests.length ∧
    db'.expenses = db.expenses ∧
    (∀ r, r ∈ db.requests → r.id = aid → { r with status := "approved" } ∈ db'.requests) ∧
    (∀ r', r' ∈ db'.requests → ∃ r, r ∈ db.requests ∧ r'.step = r.step) := by
  obtain ⟨_, _, he, _, _, _, hreq⟩ := act_ok_inv db aid "approved" uid db' resp h
  refine ⟨?_, he, ?_, ?_⟩
  · rw [hreq, List.length_map]
  · intro r hrm heq
    rw [hreq]
    exact update_mem_eq db.requests aid "approved" r hrm heq
  · intro r' hr'
    rw [hreq] at hr'
    obtain ⟨r, hrm, hfr⟩ := List.mem_map.mp hr'
    refine ⟨r, hrm, ?_⟩
    rw [← hfr]
    exact update_step aid "approved" r

/-- Witness for the amended C2 at the concrete state `c2db`. -/
theorem c2_approve_is_local_witness :
    c2db'.requests.length = c2db.requests.length ∧
    c2db'.expenses = c2db.expenses ∧
    (⟨1, "approved", 1, 1, 10⟩ : ApprovalRequest) ∈ c2db'.requests := by
  have h := c2_approve_is_local c2db 1 10 c2db' ⟨1, "approved"⟩ rfl
  exact ⟨h.1, h.2.1, h.2.2.1 ⟨1, "pending", 1, 1, 10⟩ (by decide) (by decide)⟩

/-
Claim C3.
-/

/-- C3 counterexample: request 1 of `c3db` is already resolved with status
"approved", yet a second action by its approver does not fail with any
Conflict error — it succeeds and flips the stored status to "rejected". -/
theorem c3_counterexample :
    getRequest c3db 1 = some ⟨1, "approved", 1, 1, 10⟩ ∧
    act_on_approval c3db 1 "rejected" 10 = Except.ok (c3db', ⟨1, "rejected"⟩) ∧
    getRequest c3db' 1 = some ⟨1, "rejected", 1, 1, 10⟩ :=
  ⟨rfl, rfl, rfl⟩

/-- C3 amended: act_on_approval never checks the current status of the
request: an approve or reject by the owning approver succeeds whatever that
status is (pending, approved or rejected), overwriting it with the action
string — acting twice simply applies both updates and no Conflict error
exists in the route. -/
theorem c3_resolved_overwrite (db : DB) (aid : Nat) (action : String)
    (uid : Nat) (a : ApprovalRequest) (hfind : getRequest db aid = some a)
    (howner : a.approver_id = uid)
    (haction : action = "approved" ∨ action = "rejected") :
    act_on_approval db aid action uid =
      Except.ok
        ({ db with
            requests := db.requests.map
              (fun r => if r.id = aid then { r with status := action } else r) },
         { approval_id := a.id, status := action }) :=
  act_ok_eq db aid action uid a hfind howner haction

/-- Witness for the amended C3: acting on the already-approved request 1 of
`c3db` succeeds with the overwriting update. -/
theorem c3_resolved_overwrite_witness :
    act_on_approval c3db 1 "rejected" 10 =
      Except.ok
        ({ c3db with
            requests := c3db.requests.map
              (fun r => if r.id = 1 then { r with status := "rejected" } else r) },
         { approval_id := 1, status := "rejected" }) :=
  c3_resolved_overwrite c3db 1 "rejected" 10 ⟨1, "approved", 1, 1, 10⟩ rfl rfl
    (Or.inr rfl)

/-
Claim C4.
-/

/-- C4 counterexample: company 1 of `c4db` has a step-1 rule and a step-2
rule, both with fixed approvers; submitting an expense creates BOTH
requests at once — the step-2 request exists at submission time, before
step 1 has resolved. -/
theorem c4_counterexample :
    (submit_expense c4db c4user 7 "USD" "it" "mouse" 0).1.requests =
      [⟨1, "pending", 1, 1, 10⟩, ⟨2, "pending", 2, 1, 20⟩] ∧
    (⟨2, "pending", 2, 1, 20⟩ : ApprovalRequest) ∈
      (submit_expense c4db c4user 7 "USD" "it" "mouse" 0).1.requests :=
  ⟨rfl, by decide⟩

/-- C4 amended: when the company has at least one rule, submit_expense
materializes one pending request per rule with a truthy fixed approver_id,
at that rule's own step — rules at every step are materialized eagerly at
submission time, not only the lowest step. -/
theorem c4_eager_materialization (db : DB) (u : User) (amount : Rat)
    (currency category description : String) (date : Nat)
    (hrules : rulesFor db u.company_id ≠ []) :
    (submit_expense db u amount currency category description date).1.requests =
      db.requests ++
        buildRequests (rulesFor db u.company_id) db.nextExpenseId db.nextRequestId ∧
    ∀ r ∈ buildRequests (rulesFor db u.company_id) db.nextExpenseId db.nextRequestId,
      r.status = "pending" ∧ r.expense_id = db.nextExpenseId ∧
      ∃ rule, rule ∈ rulesFor db u.company_id ∧ rule.step = r.step ∧
        rule.approver_id = some r.approver_id := by
  constructor
  · have hne : (rulesFor db u.company_id).isEmpty = false := by
      rcases hL : rulesFor db u.company_id with _ | ⟨r0, rest⟩
      · exact absurd hL hrules
      · rfl
    simp [submit_expense, hne]
  · exact buildRequests_spec (rulesFor db u.company_id) db.nextExpenseId db.nextRequestId

/-- Witness for the amended C4 at the concrete state `c4db`. -/
theorem c4_eager_materialization_witness :
    (submit_expense c4db c4user 7 "USD" "it" "mouse" 0).1.requests =
      c4db.requests ++ buildRequests (rulesFor c4db c4user.company_id) 1 1 := by
  have h := c4_eager_materialization c4db c4user 7 "USD" "it" "mouse" 0 (by decide)
  exact h.1

/-
Claim C6.
-/

/-- C6: when the submitter's company has zero approval rules and the
submitter has a manager (a truthy manager_id), submit_expense creates
exactly one new ApprovalRequest, at step 1, for the freshly created
expense, with approver_id equal to the manager_id. -/
theorem c6_zero_rules_manager_fallback (db : DB) (u : User) (amount : Rat)
    (currency category description : String) (date : Nat) (m : Nat)
    (hm : u.manager_id = some m) (hmpos : 0 < m)
    (hrules : rulesFor db u.company_id = []) :
    (submit_expense db u amount currency category description date).1.requests =
      db.requests ++
        [{ id := db.nextRequestId, status := "pending", step := 1,
           expense_id := db.nextExpenseId, approver_id := m }] := by
  have hm0 : optTruthy (some m) = true := by
    simp [optTruthy, Nat.pos_iff_ne_zero.mp hmpos]
  simp [submit_expense, hrules, hm, hm0]

/-- Witness for C6: submitting in `c6db` as `c6user` (manager 3, zero
rules) yields exactly the single step-1 request for approver 3. -/
theorem c6_zero_rules_manager_fallback_witness :
    (submit_expense c6db c6user 10 "USD" "travel" "taxi" 0).1.requests =
      c6db.requests ++
        [{ id := c6db.nextRequestId, status := "pending", step := 1,
           expense_id := c6db.nextExpenseId, approver_id := 3 }] :=
  c6_zero_rules_manager_fallback c6db c6user 10 "USD" "travel" "taxi" 0 3 rfl
    (by decide) rfl

/-
Claim C7.
-/

/-- C7 counterexample: `c6db` has zero rules and `c7user` has no manager;
submitting an expense creates zero ApprovalRequests, but nothing marks the
expense auto_approved: the Expense model has no status column, and the
response of the route reports the status string "submitted", not
"auto_approved" — approval-freedom is only the absence of requests. -/
theorem c7_counterexample :
    (submit_expense c6db c7user 5 "USD" "meals" "lunch" 0).1.requests = [] ∧
    (submit_expense c6db c7user 5 "USD" "meals" "lunch" 0).2.status = "submitted" ∧
    (submit_expense c6db c7user 5 "USD" "meals" "lunch" 0).2.status ≠ "auto_approved" :=
  ⟨rfl, rfl, by decide⟩

/-- C7 amended: with zero rules and no manager, submit_expense creates zero
ApprovalRequests and records NO explicit terminal status: the expense row
(which has no status field) is stored as submitted and the response reports
"submitted"; auto-approval is observable only as the absence of requests. -/
theorem c7_no_rules_no_manager (db : DB) (u : User) (amount : Rat)
    (currency category description : String) (date : Nat)
    (hm : u.manager_id = none) (hrules : rulesFor db u.company_id = []) :
    (submit_expense db u amount currency category description date).1.requests =
      db.requests ∧
    (submit_expense db u amount currency category description date).2.status =
      "submitted" := by
  constructor
  · simp [submit_expense, hrules, hm, optTruthy, buildRequests]
  · rfl

/-- Witness for the amended C7 at the concrete state `c6db` with `c7user`. -/
theorem c7_no_rules_no_manager_witness :
    (submit_expense c6db c7user 5 "USD" "meals" "lunch" 0).1.requests =
      c6db.requests ∧
    (submit_expense c6db c7user 5 "USD" "meals" "lunch" 0).2.status =
      "submitted" :=
  c7_no_rules_no_manager c6db c7user 5 "USD" "meals" "lunch" 0 rfl rfl

/-
Claim C8.
-/

/-- C8 counterexample: user 20 acting on request 1 of `c8db` (owned by
approver 10) receives exactly the same 404 "Approval not found" failure as
acting on the nonexistent request 99 — not a distinct Forbidden (403)
error. -/
theorem c8_counterexample :
    act_on_approval c8db 1 "approved" 20 =
      Except.error { status := 404, detail := "Approval not found" } ∧
    act_on_approval c8db 99 "approved" 20 =
      Except.error { status := 404, detail := "Approval not found" } ∧
    (404 : Nat) ≠ 403 :=
  ⟨rfl, rfl, by decide⟩

/-- C8 amended: a missing request id fails with 404 "Approval not found",
and a request owned by a different approver fails with the SAME 404
"Approval not found" — the route folds the Forbidden case into NotFound
instead of raising a distinct error. -/
theorem c8_not_found_for_foreign (db : DB) (aid : Nat) (action : String)
    (uid : Nat) :
    (getRequest db aid = none →
      act_on_approval db aid action uid =
        Except.error { status := 404, detail := "Approval not found" }) ∧
    (∀ a, getRequest db aid = some a → a.approver_id ≠ uid →
      act_on_approval db aid action uid =
        Except.error { status := 404, detail := "Approval not found" }) := by
  constructor
  · intro hf
    unfold act_on_approval
    rw [hf]
  · intro a hf hne
    unfold act_on_approval
    rw [hf]
    simp only [if_pos hne]

/-- Witness for the amended C8 at the concrete state `c8db`: both the
foreign-approver case and the missing-id case produce the 404 error. -/
theorem c8_not_found_for_foreign_witness :
    act_on_approval c8db 99 "approved" 20 =
      Except.error { status := 404, detail := "Approval not found" } ∧
    act_on_approval c8db 1 "approved" 20 =
      Except.error { status := 404, detail := "Approval not found" } :=
  ⟨(c8_not_found_for_foreign c8db 99 "approved" 20).1 rfl,
   (c8_not_found_for_foreign c8db 1 "approved" 20).2 ⟨1, "pending", 1, 1, 10⟩ rfl
     (by decide)⟩

/-
Claim C9.
-/

/-- C9 counterexample: the claim's action strings "approve" and "reject"
are refused with 400 "Invalid action" even for the owning approver on a
pending request, while the spelling "approved" is the one that succeeds. -/
theorem c9_counterexample :
    act_on_approval c8db 1 "approve" 10 =
      Except.error { status := 400, detail := "Invalid action" } ∧
    act_on_approval c8db 1 "reject" 10 =
      Except.error { status := 400, detail := "Invalid action" } ∧
    act_on_approval c8db 1 "approved" 10 = Except.ok (c8db', ⟨1, "approved"⟩) :=
  ⟨rfl, rfl, rfl⟩

/-- C9 amended: for an existing request owned by the acting user, the
accepted action values are exactly "approved" and "rejected": any other
string fails with 400 "Invalid action" (producing no new state), and each
of the two accepted strings succeeds with the status-overwriting update. -/
theorem c9_action_strings (db : DB) (aid : Nat) (action : String) (uid : Nat)
    (a : ApprovalRequest) (hfind : getRequest db aid = some a)
    (howner : a.approver_id = uid) :
    (action ≠ "approved" → action ≠ "rejected" →
      act_on_approval db aid action uid =
        Except.error { status := 400, detail := "Invalid action" }) ∧
    (action = "approved" ∨ action = "rejected" →
      act_on_approval db aid action uid =
        Except.ok
          ({ db with
              requests := db.requests.map
                (fun r => if r.id = aid then { r with status := action } else r) },
           { approval_id := a.id, status := action })) := by
  constructor
  · intro h1 h2
    unfold act_on_approval
    rw [hfind]
    simp only [if_neg (not_ne_iff.mpr howner), if_pos (And.intro h1 h2)]
  · intro haction
    exact act_ok_eq db aid action uid a hfind howner haction

/-- Witness for the amended C9 at the concrete state `c8db`: the string
"approve" is refused and the string "approved" is accepted. -/
theorem c9_action_strings_witness :
    act_on_approval c8db 1 "approve" 10 =
      Except.error { status := 400, detail := "Invalid action" } ∧
    act_on_approval c8db 1 "approved" 10 =
      Except.ok
        ({ c8db with
            requests := c8db.requests.map
              (fun r => if r.id = 1 then { r with status := "approved" } else r) },
         { approval_id := 1, status := "approved" }) :=
  ⟨(c9_action_strings c8db 1 "approve" 10 ⟨1, "pending", 1, 1, 10⟩ rfl rfl).1
     (by decide) (by decide),
   (c9_action_strings c8db 1 "approved" 10 ⟨1, "pending", 1, 1, 10⟩ rfl rfl).2
     (Or.inl rfl)⟩

/-
Claim C5.
-/

/-- C5 counterexample, on the 60 percent rule of `c5db` with its 3 pool
requests.  First chain: after 2 of 3 approvals (66.7 percent, at or above
the threshold) the state differs from `c5db` in nothing but the two
individual statuses — the third request is still pending and no
step-completion effect of any kind occurred.  Second chain: after 2
rejections the threshold is unreachable (at most 33.3 percent), yet
request 1 is still pending and nothing records an expense-level rejection.
Third and fourth chains: the run with 1 approval and 2 rejections produces
exactly the same request list whether the rule carries the 60 percent
threshold or no threshold at all — the percentage is never consulted. -/
theorem c5_counterexample :
    actChain c5db [(1, "approved", 11), (2, "approved", 12)] =
      Except.ok { c5db with requests :=
        [⟨1, "approved", 1, 1, 11⟩, ⟨2, "approved", 1, 1, 12⟩,
         ⟨3, "pending", 1, 1, 13⟩] } ∧
    actChain c5db [(2, "rejected", 12), (3, "rejected", 13)] =
      Except.ok { c5db with requests :=
        [⟨1, "pending", 1, 1, 11⟩, ⟨2, "rejected", 1, 1, 12⟩,
         ⟨3, "rejected", 1, 1, 13⟩] } ∧
    actChain c5db [(1, "approved", 11), (2, "rejected", 12), (3, "rejected", 13)] =
      Except.ok { c5db with requests :=
        [⟨1, "approved", 1, 1, 11⟩, ⟨2, "rejected", 1, 1, 12⟩,
         ⟨3, "rejected", 1, 1, 13⟩] } ∧
    actChain c5dbNoPct [(1, "approved", 11), (2, "rejected", 12), (3, "rejected", 13)] =
      Except.ok { c5dbNoPct with requests :=
        [⟨1, "approved", 1, 1, 11⟩, ⟨2, "rejected", 1, 1, 12⟩,
         ⟨3, "rejected", 1, 1, 13⟩] } :=
  ⟨rfl, rfl, rfl, rfl⟩

/-- C5 amended: act_on_approval never reads the rule table at all, so no
percentage threshold is ever evaluated and no approval ratio ever computed:
replacing the rules of the store by ANY other rule list (for instance
dropping the percentage_required value) yields the very same outcome, up to
carrying that replacement along — each action merely overwrites the status
of its own request, and no step completion or expense-level rejection is
ever triggered by reaching or missing a threshold. -/
theorem c5_rules_ignored (db : DB) (R : List ApprovalRule) (aid : Nat)
    (action : String) (uid : Nat) :
    act_on_approval { db with rules := R } aid action uid =
      Except.map (fun p => ({ p.1 with rules := R }, p.2))
        (act_on_approval db aid action uid) := by
  unfold act_on_approval getRequest
  rcases hc : db.requests.find? (fun r => r.id == aid) with _ | a
  · rw [show ({ db with rules := R } : DB).requests = db.requests from rfl, hc]
    rfl
  · rw [show ({ db with rules := R } : DB).requests = db.requests from rfl, hc]
    by_cases h1 : a.approver_id ≠ uid
    · simp only [if_pos h1]
      rfl
    · by_cases h2 : action ≠ "approved" ∧ action ≠ "rejected"
      · simp only [if_neg h1, if_pos h2]
        rfl
      · simp only [if_neg h1, if_neg h2]
        rfl

end ExpenseApproval
